import Mathlib

set_option maxRecDepth 4000

/-!
Verification of the Logger repository's asynchronous buffered sink
(`src/src/DataOps.cpp`, `src/src/FileOps.cpp`) against its specification.

Bytes are modelled as `Nat` (values 0..255); a record (the C++
`std::array<char, 1025>`) is a `List Nat` of length 1025; the record queue
(`std::queue<std::array<char, 1025>>`) is a `List (List Nat)` whose head is
the front of the queue.  File content is modelled as the list of
newline-terminated lines written so far.  Exceptions (`std::exception_ptr`)
are modelled as `Option String` (`none` = null pointer).
-/

/-- The capacity of one record buffer: `std::array<char, 1025>`
("One extra byte for null termination"). -/
def RECORD_ARR_SIZE : Nat := 1025

/-- The effect of the inner `push` lambda of `DataOps::push` / `FileOps::push`
on the record buffer: `std::copy` the payload to the front of the buffer and,
when the payload is shorter than the buffer, `std::fill` the rest with `'\0'`.
When the payload has exactly 1025 bytes nothing is filled (the replicate is
empty), exactly as in the source where `data.size() < dataRecord.size()` is
false. -/
def pad (d : List Nat) : List Nat :=
  d ++ List.replicate (RECORD_ARR_SIZE - d.length) 0

/-- `std::string dataCopy = data.data();` constructs the copy through C-string
semantics: the copy stops at the first NUL byte of the payload. -/
def cstr (d : List Nat) : List Nat :=
  d.takeWhile (fun b => b != 0)

/-- The splitting loop of `DataOps::push` / `FileOps::push`:
`while (dataCopy.size() > dataRecord.size())` pushes the first
`dataRecord.size() - 1` = 1024 bytes as one record, then advances by
`dataRecord.size()` = 1025 bytes (`dataCopy = dataCopy.substr(1025)`);
afterwards a non-empty remainder (of up to 1025 bytes) is pushed as a final
record. -/
def chunkSplit (c : List Nat) : List (List Nat) :=
  if h : RECORD_ARR_SIZE < c.length then
    pad (c.take (RECORD_ARR_SIZE - 1)) :: chunkSplit (c.drop RECORD_ARR_SIZE)
  else if c.isEmpty then [] else [pad c]
termination_by c.length
decreasing_by
  simp only [List.length_drop, RECORD_ARR_SIZE] at *
  omega

/-- The records appended to `m_DataRecords` by one call of
`DataOps::push(const std::string_view)` / `FileOps::push`: empty payloads
return early; payloads of more than 1025 bytes go through the splitting loop
(via the C-string copy `dataCopy`); payloads of at most 1025 bytes are pushed
as a single zero-padded record. -/
def pushRecords (data : List Nat) : List (List Nat) :=
  if data.isEmpty then []
  else if RECORD_ARR_SIZE < data.length then chunkSplit (cstr data)
  else [pad data]

/-- `file << data.data()` in `FileOps::writeToFile` writes the record through
its C-string: the bytes up to the first NUL terminator. -/
def trimRecord (r : List Nat) : List Nat :=
  r.takeWhile (fun b => b != 0)

/-- The shared state of one sink instance: the queue-side fields are common to
`DataOps` and `FileOps` (the code is duplicated verbatim); the remaining
fields belong to the file sink.  `mExcpPtrVec` is the fault list
`FileOps::m_excpPtrVec`, initialised in the source as `{0}` (a single null
`exception_ptr`).  `creatable` and `writable` model the filesystem
environment: whether creating the file would succeed and whether opening it
for append would succeed.  `notifyCount` counts the `notify_one` calls made
by `push`; `watcherJoined` records that the owner joined the watcher thread. -/
structure OpsState where
  mDataRecords : List (List Nat)
  mDataReady : Bool
  mShutAndExit : Bool
  notifyCount : Nat
  mExcpPtrVec : List (Option String)
  mFileExists : Bool
  creatable : Bool
  writable : Bool
  fileContent : List (List Nat)
  watcherJoined : Bool
deriving DecidableEq

/-- `DataOps::push` / `FileOps::push`: append the encoded records under the
queue lock; afterwards, if the queue now holds exactly 256 records
(`m_DataRecords.size() == 256`), set `m_dataReady` and `notify_one` the
watcher (modelled by incrementing `notifyCount`).  Empty payloads return
before any of this. -/
def pushOp (s : OpsState) (data : List Nat) : OpsState :=
  if data.isEmpty then s
  else
    let q := s.mDataRecords ++ pushRecords data
    if q.length = 256 then
      { s with mDataRecords := q, mDataReady := true,
               notifyCount := s.notifyCount + 1 }
    else { s with mDataRecords := q }

/-- `DataOps::pop` / `FileOps::pop`: on an empty queue return `false` leaving
everything (including the caller's out-buffer) untouched; otherwise clear the
out-buffer, swap it with the whole queue (so the buffer receives the records
in FIFO order and the queue becomes empty), clear `m_dataReady`, return
`true`. -/
def popOp (s : OpsState) (out : List (List Nat)) :
    OpsState × List (List Nat) × Bool :=
  if s.mDataRecords.isEmpty then (s, out, false)
  else ({ s with mDataRecords := [], mDataReady := false },
        s.mDataRecords, true)

/-- `FileOps::writeToFile`: an empty batch returns at once.  Otherwise the
file is opened for append; if the open succeeds every record is written as
its C-string (`file << data.data()`, i.e. trimmed at the first NUL) followed
by `"\n"`, in batch order, and no exception results; if the open fails an
error message is built, thrown, and stored by the `catch(...)` into the
caller's `exception_ptr` out-parameter (the second component).  The
create-on-append of a missing file is not tracked; no claim depends on it. -/
def writeToFile (s : OpsState) (batch : List (List Nat)) :
    OpsState × Option String :=
  if batch.isEmpty then (s, none)
  else if s.writable then
    ({ s with fileContent := s.fileContent ++ batch.map trimRecord }, none)
  else (s, some "WRITING_ERROR : File can not be opened to write data;")

/-- One iteration of the `FileOps::keepWatchAndPull` loop body once the wait
is released: `pop` the queue; on success `emplace_back` the *current* value
of the freshly declared `excpPtr` — still the null pointer, since the copy
into `m_excpPtrVec` happens before the writer thread is spawned — then run
the writer and join it.  The exception the writer stores through the
reference is dropped when the local `excpPtr` goes out of scope (the second
component of `writeToFile` is discarded).  Returns the new state and whether
the loop breaks (`m_shutAndExit`). -/
def keepWatchAndPullIter (s : OpsState) : OpsState × Bool :=
  let popped := popOp s []
  let s1 := popped.1
  let batch := popped.2.1
  let success := popped.2.2
  if success then
    let s2 := { s1 with mExcpPtrVec := s1.mExcpPtrVec ++ [none] }
    let written := writeToFile s2 batch
    (written.1, written.1.mShutAndExit)
  else (s1, s1.mShutAndExit)

/-- `FileOps::~FileOps` in the sequential interleaving where the watcher
observes the shutdown flag after the destructor sets it and no further pushes
arrive: set `m_shutAndExit`, notify, let the woken watcher run its final
iteration (draining and writing whatever remains, then breaking out of the
loop), and join the watcher thread. -/
def destructorRun (s : OpsState) : OpsState :=
  let s1 := { s with mShutAndExit := true }
  let final := keepWatchAndPullIter s1
  { final.1 with watcherJoined := true }

/-- `FileOps::createFile`: only acts when the file does not already exist;
creation succeeds when the environment allows the `std::ofstream` open. -/
def createFileOp (s : OpsState) : OpsState × Bool :=
  if s.mFileExists then (s, false)
  else if s.creatable then ({ s with mFileExists := true }, true)
  else (s, false)

/-- `FileOps::writeFile(const std::string_view)`: empty data returns; if the
file exists the data is pushed; otherwise the file is created first and the
data pushed, and when creation fails a
`std::runtime_error("File neither exists nor can be created")` is thrown. -/
def writeFile (s : OpsState) (data : List Nat) : Except String OpsState :=
  if data.isEmpty then .ok s
  else if s.mFileExists then .ok (pushOp s data)
  else if (createFileOp s).2 then .ok (pushOp (createFileOp s).1 data)
  else .error "File neither exists nor can be created"

/-- `std::bitset<w>(v).to_string()`: the `w`-character binary rendering of
the value, most significant bit first, as ASCII bytes (48 = '0', 49 = '1'). -/
def binRender (w v : Nat) : List Nat :=
  (List.range w).map (fun i => if v.testBit (w - 1 - i) then 49 else 48)

/-- `FileOps::writeFile(const uint8_t)`. -/
def writeFileU8 (s : OpsState) (v : Nat) : Except String OpsState :=
  writeFile s (binRender 8 v)

/-- `FileOps::writeFile(const uint16_t)`. -/
def writeFileU16 (s : OpsState) (v : Nat) : Except String OpsState :=
  writeFile s (binRender 16 v)

/-- `FileOps::writeFile(const uint32_t)`. -/
def writeFileU32 (s : OpsState) (v : Nat) : Except String OpsState :=
  writeFile s (binRender 32 v)

/-- `FileOps::writeFile(const uint64_t)`. -/
def writeFileU64 (s : OpsState) (v : Nat) : Except String OpsState :=
  writeFile s (binRender 64 v)

/-- `FileOps::appendFile(const std::string_view)`: `{ writeFile(data); }`. -/
def appendFileStr (s : OpsState) (data : List Nat) : Except String OpsState :=
  writeFile s data

/-- `FileOps::appendFile(const uint8_t)`:
`{ writeFile(std::bitset<8>(data).to_string()); }`. -/
def appendFileU8 (s : OpsState) (v : Nat) : Except String OpsState :=
  writeFile s (binRender 8 v)

/-- `FileOps::appendFile(const uint16_t)`. -/
def appendFileU16 (s : OpsState) (v : Nat) : Except String OpsState :=
  writeFile s (binRender 16 v)

/-- `FileOps::appendFile(const uint32_t)`. -/
def appendFileU32 (s : OpsState) (v : Nat) : Except String OpsState :=
  writeFile s (binRender 32 v)

/-- `FileOps::appendFile(const uint64_t)`. -/
def appendFileU64 (s : OpsState) (v : Nat) : Except String OpsState :=
  writeFile s (binRender 64 v)

/-- `FileOps::writeFile(const std::vector<uint8_t>&)`: write each element in
order (the empty-vector guard is a no-op either way); an exception from an
element's write aborts the loop and propagates. -/
def writeFileVec8 (s : OpsState) (vs : List Nat) : Except String OpsState :=
  vs.foldlM writeFileU8 s

/-- `FileOps::writeFile(const std::vector<uint16_t>&)`. -/
def writeFileVec16 (s : OpsState) (vs : List Nat) : Except String OpsState :=
  vs.foldlM writeFileU16 s

/-- `FileOps::writeFile(const std::vector<uint32_t>&)`. -/
def writeFileVec32 (s : OpsState) (vs : List Nat) : Except String OpsState :=
  vs.foldlM writeFileU32 s

/-- `FileOps::writeFile(const std::vector<uint64_t>&)`. -/
def writeFileVec64 (s : OpsState) (vs : List Nat) : Except String OpsState :=
  vs.foldlM writeFileU64 s

/-- `FileOps::appendFile(const std::vector<uint8_t>&)`: the same loop of
`writeFile(bindata)` calls as the write overload. -/
def appendFileVec8 (s : OpsState) (vs : List Nat) : Except String OpsState :=
  vs.foldlM writeFileU8 s

/-- `FileOps::appendFile(const std::vector<uint16_t>&)`. -/
def appendFileVec16 (s : OpsState) (vs : List Nat) : Except String OpsState :=
  vs.foldlM writeFileU16 s

/-- `FileOps::appendFile(const std::vector<uint32_t>&)`. -/
def appendFileVec32 (s : OpsState) (vs : List Nat) : Except String OpsState :=
  vs.foldlM writeFileU32 s

/-- `FileOps::appendFile(const std::vector<uint64_t>&)`. -/
def appendFileVec64 (s : OpsState) (vs : List Nat) : Except String OpsState :=
  vs.foldlM writeFileU64 s

/-- Modelled from the spec: `DataOps::writeDataTo` is only declared in
`DataOps.hpp`, which is not under `src/`; per the spec the producer-facing
write of the in-memory sink is "encode + push-batch" into the record queue. -/
def writeDataTo (s : OpsState) (data : List Nat) : OpsState :=
  pushOp s data

/-- `DataOps::write(const std::string_view)`: empty data returns, otherwise
`writeDataTo(data)`. -/
def dataOpsWrite (s : OpsState) (data : List Nat) : OpsState :=
  if data.isEmpty then s else writeDataTo s data

/-- `DataOps::write(const uint8_t)`:
`{ write(std::bitset<8>(data).to_string()); }`. -/
def dataOpsWriteU8 (s : OpsState) (v : Nat) : OpsState :=
  dataOpsWrite s (binRender 8 v)

/-- `DataOps::write(const uint16_t)`. -/
def dataOpsWriteU16 (s : OpsState) (v : Nat) : OpsState :=
  dataOpsWrite s (binRender 16 v)

/-- `DataOps::write(const uint32_t)`. -/
def dataOpsWriteU32 (s : OpsState) (v : Nat) : OpsState :=
  dataOpsWrite s (binRender 32 v)

/-- `DataOps::write(const uint64_t)`. -/
def dataOpsWriteU64 (s : OpsState) (v : Nat) : OpsState :=
  dataOpsWrite s (binRender 64 v)

/-- `DataOps::append(const std::string_view)`: `{ write(data); }`. -/
def dataOpsAppend (s : OpsState) (data : List Nat) : OpsState :=
  dataOpsWrite s data

/-- `DataOps::append(const uint8_t)`:
`{ write(std::bitset<8>(data).to_string()); }`. -/
def dataOpsAppendU8 (s : OpsState) (v : Nat) : OpsState :=
  dataOpsWrite s (binRender 8 v)

/-- `DataOps::append(const uint16_t)`. -/
def dataOpsAppendU16 (s : OpsState) (v : Nat) : OpsState :=
  dataOpsWrite s (binRender 16 v)

/-- `DataOps::append(const uint32_t)`. -/
def dataOpsAppendU32 (s : OpsState) (v : Nat) : OpsState :=
  dataOpsWrite s (binRender 32 v)

/-- `DataOps::append(const uint64_t)`. -/
def dataOpsAppendU64 (s : OpsState) (v : Nat) : OpsState :=
  dataOpsWrite s (binRender 64 v)

/-- `DataOps::write(const std::vector<uint8_t>&)`: `write(bindata)` for each
element in order. -/
def dataOpsWriteVec8 (s : OpsState) (vs : List Nat) : OpsState :=
  vs.foldl dataOpsWriteU8 s

/-- `DataOps::write(const std::vector<uint16_t>&)`. -/
def dataOpsWriteVec16 (s : OpsState) (vs : List Nat) : OpsState :=
  vs.foldl dataOpsWriteU16 s

/-- `DataOps::write(const std::vector<uint32_t>&)`. -/
def dataOpsWriteVec32 (s : OpsState) (vs : List Nat) : OpsState :=
  vs.foldl dataOpsWriteU32 s

/-- `DataOps::write(const std::vector<uint64_t>&)`. -/
def dataOpsWriteVec64 (s : OpsState) (vs : List Nat) : OpsState :=
  vs.foldl dataOpsWriteU64 s

/-- `DataOps::append(const std::vector<uint8_t>&)`: the same loop of
`write(bindata)` calls as the write overload. -/
def dataOpsAppendVec8 (s : OpsState) (vs : List Nat) : OpsState :=
  vs.foldl dataOpsWriteU8 s

/-- `DataOps::append(const std::vector<uint16_t>&)`. -/
def dataOpsAppendVec16 (s : OpsState) (vs : List Nat) : OpsState :=
  vs.foldl dataOpsWriteU16 s

/-- `DataOps::append(const std::vector<uint32_t>&)`. -/
def dataOpsAppendVec32 (s : OpsState) (vs : List Nat) : OpsState :=
  vs.foldl dataOpsWriteU32 s

/-- `DataOps::append(const std::vector<uint64_t>&)`. -/
def dataOpsAppendVec64 (s : OpsState) (vs : List Nat) : OpsState :=
  vs.foldl dataOpsWriteU64 s

/-- A producer/consumer history over one sink: each element is a producer's
`push(payload)` or one drain of the queue by the watcher. -/
inductive SinkOp
  | push (data : List Nat)
  | drain

/-- All records encoded by the pushes of a history, in order. -/
def pushedRecords : List SinkOp → List (List Nat)
  | [] => []
  | SinkOp.push d :: rest => pushRecords d ++ pushedRecords rest
  | SinkOp.drain :: rest => pushedRecords rest

/-- Run a history, collecting the batches produced by the successful drains
in order (`keepWatchAndPull` skips dispatch when `pop` returns false). -/
def runOps (s : OpsState) (bs : List (List (List Nat))) :
    List SinkOp → OpsState × List (List (List Nat))
  | [] => (s, bs)
  | SinkOp.push d :: rest => runOps (pushOp s d) bs rest
  | SinkOp.drain :: rest =>
    let popped := popOp s []
    if popped.2.2 then runOps popped.1 (bs ++ [popped.2.1]) rest
    else runOps popped.1 bs rest

/-- A freshly constructed file sink over a writable destination: empty queue,
flags clear, the fault list holding the single null entry of its static
initialiser `{0}`. -/
def initOpsState : OpsState :=
  { mDataRecords := []
  , mDataReady := false
  , mShutAndExit := false
  , notifyCount := 0
  , mExcpPtrVec := [none]
  , mFileExists := true
  , creatable := true
  , writable := true
  , fileContent := []
  , watcherJoined := false }

/-- `n` immediate pushes of the single byte 0x61 (scenario C). -/
def pushN : Nat → OpsState
  | 0 => initOpsState
  | n + 1 => pushOp (pushN n) [97]

/-- Scenario E's state: the destination file still exists but has become
unwritable; the queue holds the record of an earlier small push. -/
def unwritableState : OpsState :=
  { initOpsState with mDataRecords := [pad [104, 105]], mDataReady := true,
                      writable := false }

/-- A sink whose queue holds 255 records, one short of the threshold. -/
def thresholdWitnessState : OpsState :=
  { initOpsState with mDataRecords := List.replicate 255 [97] }

/-- A sink shutting down with one undrained record and a writable file. -/
def shutdownWitnessState : OpsState :=
  { initOpsState with mDataRecords := [pad [104, 105]], mDataReady := true }

/-- A sink whose destination file neither exists nor can be created. -/
def unestablishedState : OpsState :=
  { initOpsState with mFileExists := false, creatable := false }

/-- Whether a producer-facing call completed without throwing. -/
def exceptOk (r : Except String OpsState) : Bool :=
  match r with
  | .ok _ => true
  | .error _ => false

/-- One full produce-consume round for one 8-bit write: the producer call
followed by one watcher iteration (scenario D). -/
def runCycleU8 (s : OpsState) (v : Nat) : Except String OpsState :=
  match writeFileU8 s v with
  | .ok s1 => .ok (keepWatchAndPullIter s1).1
  | .error e => .error e

/-- The path-configuration fields of `FileOps`, with the current working
directory as the environment that `std::filesystem::current_path()`
observes. -/
structure PathState where
  mFileName : List Char
  mFilePath : List Char
  mFileExtension : List Char
  mFilePathObj : List Char
  cwd : List Char
deriving DecidableEq

/-- `find_last_of(c)`: the index of the last occurrence of the character,
`none` for `npos`. -/
def findLast (c : Char) : List Char → Option Nat
  | [] => none
  | x :: xs =>
    match findLast c xs with
    | some i => some (i + 1)
    | none => if x = c then some 0 else none

/-- `m_FileName.substr(0, m_FileName.find_last_of('.'))`: the name up to (not
including) the last dot; the whole name when there is no dot, since
`substr(0, npos)` returns the whole string. -/
def takeToLastDot (name : List Char) : List Char :=
  match findLast '.' name with
  | none => name
  | some i => name.take i

/-- `m_FileName.substr(m_FileName.find_last_of('.'))`: the extension from the
last dot on; only reached under the guard `find('.') != npos`, so the `none`
branch is unreachable at the call site. -/
def dropToLastDot (name : List Char) : List Char :=
  match findLast '.' name with
  | none => name
  | some i => name.drop i

/-- `FileOps::populateFilePathObj`, mutating the fields in source order.  The
default extension is `".txt"`; the path separator of the modelled
(non-Windows) platform is `'/'`; `find_last_of('/')` is tried before
`find_last_of('\\')`. -/
def populateFilePathObj (s : PathState) (fdName fdPath fdExt : List Char) :
    PathState :=
  let name0 := if fdName.isEmpty then s.mFileName else fdName
  let path0 := if fdPath.isEmpty then s.mFilePath else fdPath
  let ext0 := if fdExt.isEmpty then s.mFileExtension else fdExt
  if name0.isEmpty then
    { s with mFileName := name0, mFilePath := path0, mFileExtension := ext0 }
  else
    let pair1 :=
      if ext0.isEmpty then
        if name0.contains '.' then (name0, dropToLastDot name0)
        else (name0 ++ ['.', 't', 'x', 't'], ['.', 't', 'x', 't'])
      else (takeToLastDot name0 ++ ext0, ext0)
    let name1 := pair1.1
    let ext1 := pair1.2
    let pair2 :=
      if path0.isEmpty then
        match (match findLast '/' name1 with
               | some i => some i
               | none => findLast '\\' name1) with
        | some sep => (name1.drop (sep + 1), name1.take (sep + 1))
        | none => (name1, s.cwd ++ ['/'])
      else
        if path0.getLast? ≠ some '/' ∧ path0.getLast? ≠ some '\\' then
          (name1, path0 ++ ['/'])
        else (name1, path0)
    let name2 := pair2.1
    let path1 := pair2.2
    { s with mFileName := name2, mFilePath := path1, mFileExtension := ext1,
             mFilePathObj := path1 ++ name2 }

/-- `FileOps::setFileName`: an empty argument or one equal to the current
file name returns `*this` unchanged; otherwise re-populate with the new
name only. -/
def setFileName (s : PathState) (fileName : List Char) : PathState :=
  if fileName.isEmpty || fileName == s.mFileName then s
  else populateFilePathObj s fileName [] []

/-- `FileOps::setFilePath`: the analogous guard on the current file path. -/
def setFilePath (s : PathState) (filePath : List Char) : PathState :=
  if filePath.isEmpty || filePath == s.mFilePath then s
  else populateFilePathObj s [] filePath []

/-- `FileOps::setFileExtension`: the analogous guard on the extension. -/
def setFileExtension (s : PathState) (fileExtension : List Char) : PathState :=
  if fileExtension.isEmpty || fileExtension == s.mFileExtension then s
  else populateFilePathObj s [] [] fileExtension

/-- A concrete, fully resolved path configuration. -/
def pathWitnessState : PathState :=
  { mFileName := ['a', '.', 't', 'x', 't']
  , mFilePath := ['/', 't', 'm', 'p', '/']
  , mFileExtension := ['.', 't', 'x', 't']
  , mFilePathObj := ['/', 't', 'm', 'p', '/', 'a', '.', 't', 'x', 't']
  , cwd := ['/', 'w'] }

-- Helper facts about the encoder, shared by several claims.

theorem takeWhile_nz_replicate_append (n : Nat) (t : List Nat) :
    ((List.replicate n 97 ++ t).takeWhile (fun b => b != 0)) =
      List.replicate n 97 ++ t.takeWhile (fun b => b != 0) := by
  induction n with
  | zero => simp
  | succ k ih => simp [List.replicate_succ, List.takeWhile_cons, ih]

theorem takeWhile_nz_replicate (n : Nat) :
    ((List.replicate n 97).takeWhile (fun b => b != 0)) = List.replicate n 97 := by
  have h := takeWhile_nz_replicate_append n []
  simp only [List.append_nil, List.takeWhile_nil] at h
  exact h

theorem cstr_replicate (n : Nat) : cstr (List.replicate n 97) = List.replicate n 97 := by
  simp only [cstr, takeWhile_nz_replicate]

theorem pad_replicate_1025 :
    pad (List.replicate 1025 97) = List.replicate 1025 97 := by
  rw [pad]
  simp only [List.length_replicate, RECORD_ARR_SIZE]
  norm_num

theorem chunkSplit_replicate_1025 :
    chunkSplit (List.replicate 1025 97) = [List.replicate 1025 97] := by
  rw [chunkSplit.eq_def]
  simp only [List.length_replicate, RECORD_ARR_SIZE]
  rw [dif_neg (by norm_num)]
  rw [if_neg (by simp [List.isEmpty_iff])]
  rw [pad_replicate_1025]

theorem chunkSplit_replicate_2050 :
    chunkSplit (List.replicate 2050 97) =
      [pad (List.replicate 1024 97), List.replicate 1025 97] := by
  rw [chunkSplit.eq_def]
  simp only [List.length_replicate, RECORD_ARR_SIZE]
  rw [dif_pos (by norm_num)]
  rw [List.take_replicate, List.drop_replicate]
  have hmin : min (1025 - 1) 2050 = 1024 := by norm_num
  have hsub : 2050 - 1025 = 1025 := by norm_num
  rw [hmin, hsub, chunkSplit_replicate_1025]

theorem pad_replicate_1024 :
    pad (List.replicate 1024 97) = List.replicate 1024 97 ++ [0] := by
  rw [pad]
  simp only [List.length_replicate, RECORD_ARR_SIZE]
  have h1 : (1025 - 1024 : Nat) = 1 := by norm_num
  rw [h1, List.replicate_one]

/-- Claim C1: the encoder is claimed to split a `k*1024 + r`-byte payload into
`k + (r>0 ? 1 : 0)` records of consecutive 1024-byte chunks whose trimmed
payloads concatenate back to the payload.  The code instead advances the
splitting loop by 1025 bytes while emitting only 1024: a 2050-byte payload
(k=2, r=2, all bytes 0x61) yields 2 records instead of 3, the byte at index
1024 is dropped, and the concatenation of trimmed payloads has 2049 bytes. -/
theorem push_2050_drops_byte :
    pushRecords (List.replicate 2050 97) =
        [List.replicate 1024 97 ++ [0], List.replicate 1025 97]
      ∧ (pushRecords (List.replicate 2050 97)).length = 2
      ∧ ((pushRecords (List.replicate 2050 97)).map trimRecord).flatten =
          List.replicate 2049 97
      ∧ ((pushRecords (List.replicate 2050 97)).map trimRecord).flatten ≠
          List.replicate 2050 97 := by
  have hrec : pushRecords (List.replicate 2050 97) =
      [List.replicate 1024 97 ++ [0], List.replicate 1025 97] := by
    rw [pushRecords]
    rw [if_neg (by simp [List.isEmpty_iff])]
    rw [if_pos (by simp only [List.length_replicate, RECORD_ARR_SIZE]; norm_num)]
    rw [cstr_replicate, chunkSplit_replicate_2050, pad_replicate_1024]
  have hflat : ((pushRecords (List.replicate 2050 97)).map trimRecord).flatten =
      List.replicate 2049 97 := by
    rw [hrec]
    simp only [List.map_cons, List.map_nil, List.flatten_cons, List.flatten_nil,
      trimRecord]
    rw [takeWhile_nz_replicate_append 1024 [0], takeWhile_nz_replicate 1025]
    have h0 : ([0] : List Nat).takeWhile (fun b => b != 0) = [] := rfl
    rw [h0, List.append_nil, List.append_nil, ← List.replicate_add]
  refine ⟨hrec, by rw [hrec]; rfl, hflat, ?_⟩
  rw [hflat]
  intro h
  have hl := congrArg List.length h
  simp only [List.length_replicate] at hl
  omega

theorem getD_replicate_of_lt (n i : Nat) (h : i < n) :
    (List.replicate n 97).getD i 0 = 97 := by
  induction n generalizing i with
  | zero => omega
  | succ k ih =>
    rw [List.replicate_succ]
    cases i with
    | zero => rfl
    | succ j =>
      rw [List.getD_cons_succ]
      exact ih j (by omega)

/-- Claim C2: every enqueued record is claimed to hold at most 1024 meaningful
bytes with everything beyond the payload zero-filled, so the reserved
terminator byte (index 1024) is always zero.  For a 1025-byte payload the
boundary test `data.size() > dataRecord.size()` (1025 > 1025) is false, the
whole payload is copied and `data.size() < dataRecord.size()` is also false,
so nothing is zero-filled: the record carries 1025 meaningful bytes and its
terminator byte is the payload byte 0x61, not zero. -/
theorem push_1025_nonzero_terminator :
    pushRecords (List.replicate 1025 97) = [List.replicate 1025 97]
      ∧ (List.replicate 1025 97).getD 1024 0 = 97
      ∧ (97 : Nat) ≠ 0 := by
  refine ⟨?_, getD_replicate_of_lt 1025 1024 (by norm_num), by norm_num⟩
  rw [pushRecords]
  rw [if_neg (by simp [List.isEmpty_iff])]
  rw [if_neg (by simp only [List.length_replicate, RECORD_ARR_SIZE]; norm_num)]
  rw [pad_replicate_1025]

-- Generic helper facts shared by several claims.

theorem bfalse {b : Bool} (h : ¬ b = true) : b = false := by
  cases b
  · rfl
  · exact absurd rfl h

theorem isEmpty_false_of_ne_nil {α : Type} (l : List α) (h : l ≠ []) :
    l.isEmpty = false := by
  cases l with
  | nil => exact absurd rfl h
  | cons a t => rfl

theorem takeWhile_append_all (p : Nat → Bool) (l t : List Nat)
    (h : ∀ b ∈ l, p b = true) :
    (l ++ t).takeWhile p = l ++ t.takeWhile p := by
  induction l with
  | nil => simp
  | cons a l2 ih =>
    have ha : p a = true := h a (by simp)
    simp only [List.cons_append, List.takeWhile_cons, ha, if_true]
    rw [ih (fun b hb => h b (by simp [hb]))]

theorem takeWhile_nz_replicate_zero (m : Nat) :
    (List.replicate m 0).takeWhile (fun b => b != 0) = [] := by
  cases m with
  | zero => rfl
  | succ k =>
    rw [List.replicate_succ]
    rfl

theorem trimRecord_pad (d : List Nat) (h0 : ∀ b ∈ d, b ≠ 0) :
    trimRecord (pad d) = d := by
  rw [trimRecord, pad]
  rw [takeWhile_append_all _ _ _ (fun b hb => by simpa using h0 b hb)]
  rw [takeWhile_nz_replicate_zero]
  simp

theorem pushRecords_of_small (d : List Nat) (h1 : d ≠ [])
    (h2 : d.length ≤ RECORD_ARR_SIZE) :
    pushRecords d = [pad d] := by
  rw [pushRecords, if_neg (by simp [isEmpty_false_of_ne_nil d h1]),
    if_neg (by omega)]

theorem pushRecords_97 : pushRecords [97] = [pad [97]] :=
  pushRecords_of_small [97] (by simp) (by norm_num [RECORD_ARR_SIZE])

theorem pushOp_empty (s : OpsState) (d : List Nat) (h : d.isEmpty = true) :
    pushOp s d = s := by
  rw [pushOp, if_pos h]

theorem pushOp_hit (s : OpsState) (d : List Nat) (hne : d.isEmpty = false)
    (hlen : (s.mDataRecords ++ pushRecords d).length = 256) :
    pushOp s d = { s with mDataRecords := s.mDataRecords ++ pushRecords d,
                          mDataReady := true,
                          notifyCount := s.notifyCount + 1 } := by
  rw [pushOp, if_neg (by simp [hne])]
  dsimp only
  rw [if_pos hlen]

theorem pushOp_miss (s : OpsState) (d : List Nat) (hne : d.isEmpty = false)
    (hlen : (s.mDataRecords ++ pushRecords d).length ≠ 256) :
    pushOp s d
      = { s with mDataRecords := s.mDataRecords ++ pushRecords d } := by
  rw [pushOp, if_neg (by simp [hne])]
  dsimp only
  rw [if_neg hlen]

theorem pushOp_mDataRecords (s : OpsState) (d : List Nat) :
    (pushOp s d).mDataRecords = s.mDataRecords ++ pushRecords d := by
  by_cases h : d.isEmpty = true
  · rw [pushOp_empty s d h, pushRecords, if_pos h, List.append_nil]
  · by_cases hlen : (s.mDataRecords ++ pushRecords d).length = 256
    · rw [pushOp_hit s d (bfalse h) hlen]
    · rw [pushOp_miss s d (bfalse h) hlen]

theorem pushOp_env (s : OpsState) (d : List Nat) :
    (pushOp s d).mFileExists = s.mFileExists
      ∧ (pushOp s d).creatable = s.creatable
      ∧ (pushOp s d).writable = s.writable
      ∧ (pushOp s d).mShutAndExit = s.mShutAndExit
      ∧ (pushOp s d).fileContent = s.fileContent
      ∧ (pushOp s d).mExcpPtrVec = s.mExcpPtrVec := by
  rw [pushOp]
  by_cases h : d.isEmpty = true
  · rw [if_pos h]
    exact ⟨rfl, rfl, rfl, rfl, rfl, rfl⟩
  · rw [if_neg h]
    dsimp only
    split
    · exact ⟨rfl, rfl, rfl, rfl, rfl, rfl⟩
    · exact ⟨rfl, rfl, rfl, rfl, rfl, rfl⟩

theorem binRender_length (w v : Nat) : (binRender w v).length = w := by
  simp [binRender]

theorem binRender_vals (w v : Nat) : ∀ b ∈ binRender w v, b = 48 ∨ b = 49 := by
  intro b hb
  simp only [binRender, List.mem_map] at hb
  obtain ⟨i, _, hi⟩ := hb
  by_cases hbit : v.testBit (w - 1 - i) = true
  · right
    rw [← hi, if_pos hbit]
  · left
    rw [← hi, if_neg hbit]

theorem binRender_ne_nil (w v : Nat) (h : w ≠ 0) : binRender w v ≠ [] := by
  intro hc
  have hl := congrArg List.length hc
  rw [binRender_length] at hl
  simp at hl
  exact h hl

/-- Claim C3: on an unwritable destination during a batch write, the failure
is claimed to be captured as a FaultRecord in the fault list, not re-thrown,
with `write()` still succeeding.  What the code does at this input: `write()`
does succeed, nothing is re-thrown (the iteration returns normally, the loop
continues), and the fault list gains exactly one entry — but that entry is
the null `exception_ptr` copied by `emplace_back` *before* the writer ran;
the exception the writer actually captured (last conjunct but one shows the
writer produced one) is discarded, every fault-list entry stays null, and
the batch is dropped without being written. -/
theorem fault_capture_lost_on_unwritable :
    writeFile unwritableState [104, 105]
        = Except.ok (pushOp unwritableState [104, 105])
      ∧ (keepWatchAndPullIter unwritableState).1.mExcpPtrVec = [none, none]
      ∧ (writeToFile unwritableState [pad [104, 105]]).2
          = some "WRITING_ERROR : File can not be opened to write data;"
      ∧ ((keepWatchAndPullIter unwritableState).1.mExcpPtrVec.all
            Option.isNone) = true
      ∧ (keepWatchAndPullIter unwritableState).1.fileContent = []
      ∧ (keepWatchAndPullIter unwritableState).2 = false :=
  ⟨rfl, rfl, rfl, rfl, rfl, rfl⟩

/-- Claim C4: the producer-facing calls fail exactly when the destination
can neither be found nor created — a programmer-error-class condition — and
never on write-I/O grounds (`writable` does not occur in the failure
condition); the only error is the destination-unestablished
`runtime_error`, and `appendFile` shares `writeFile`'s behaviour.  The
`DataOps` producer calls are modelled as total functions (`dataOpsWrite`),
matching a source with no throw path. -/
theorem writeFile_fails_only_when_unestablished :
    ∀ (s : OpsState) (data : List Nat),
      (exceptOk (writeFile s data) = false ↔
        (data.isEmpty = false ∧ s.mFileExists = false ∧ s.creatable = false))
      ∧ (∀ e, writeFile s data = Except.error e →
          e = "File neither exists nor can be created")
      ∧ appendFileStr s data = writeFile s data
      ∧ dataOpsWrite s data = pushOp s data := by
  intro s data
  have hdata : dataOpsWrite s data = pushOp s data := by
    rw [dataOpsWrite, writeDataTo]
    by_cases h : data.isEmpty = true
    · rw [if_pos h, pushOp_empty s data h]
    · rw [if_neg h]
  refine ⟨⟨?_, ?_⟩, ?_, rfl, hdata⟩
  · intro hfail
    rw [writeFile] at hfail
    split_ifs at hfail with h1 h2 h3
    · exact absurd hfail (by simp [exceptOk])
    · exact absurd hfail (by simp [exceptOk])
    · exact absurd hfail (by simp [exceptOk])
    · refine ⟨bfalse h1, bfalse h2, ?_⟩
      rw [createFileOp, if_neg h2] at h3
      by_cases hc : s.creatable = true
      · rw [if_pos hc] at h3
        exact absurd rfl h3
      · exact bfalse hc
  · rintro ⟨a, b, c⟩
    have hcr : ¬ (createFileOp s).2 = true := by
      rw [createFileOp, if_neg (by simp [b]), if_neg (by simp [c])]
      simp
    rw [writeFile, if_neg (by simp [a]), if_neg (by simp [b]), if_neg hcr]
    rfl
  · intro e he
    rw [writeFile] at he
    split_ifs at he
    simp only [Except.error.injEq] at he
    exact he.symm

/-- Witness instantiating claim C4's theorem at a destination that neither
exists nor can be created. -/
theorem writeFile_fails_only_when_unestablished_witness :
    exceptOk (writeFile unestablishedState [104]) = false
      ∧ appendFileStr unestablishedState [104]
          = writeFile unestablishedState [104] := by
  have h := writeFile_fails_only_when_unestablished unestablishedState [104]
  exact ⟨h.1.mpr ⟨rfl, rfl, rfl⟩, h.2.2.1⟩

theorem pushN_invariant (n : Nat) (h : n ≤ 256) :
    (pushN n).mDataRecords.length = n
      ∧ (pushN n).mDataReady = decide (n = 256)
      ∧ (pushN n).notifyCount = (if n = 256 then 1 else 0) := by
  induction n with
  | zero => exact ⟨rfl, rfl, rfl⟩
  | succ k ih =>
    obtain ⟨hq, hr, hc⟩ := ih (by omega)
    have hne : ([97] : List Nat).isEmpty = false := rfl
    have hlen : ((pushN k).mDataRecords ++ pushRecords [97]).length = k + 1 := by
      rw [pushRecords_97]
      simp [hq]
    by_cases h256 : k + 1 = 256
    · have hlen2 : ((pushN k).mDataRecords ++ pushRecords [97]).length = 256 :=
        hlen.trans h256
      rw [pushN, pushOp_hit _ _ hne hlen2]
      refine ⟨hlen, ?_, ?_⟩
      · simp [h256]
      · have hk : k ≠ 256 := by omega
        show (pushN k).notifyCount + 1 = if k + 1 = 256 then 1 else 0
        rw [hc, if_neg hk, if_pos h256]
    · have hlen2 : ((pushN k).mDataRecords ++ pushRecords [97]).length ≠ 256 := by
        rw [hlen]
        exact h256
      rw [pushN, pushOp_miss _ _ hne hlen2]
      have hk : k ≠ 256 := by omega
      refine ⟨hlen, ?_, ?_⟩
      · show (pushN k).mDataReady = decide (k + 1 = 256)
        rw [hr]
        simp [hk, h256]
      · show (pushN k).notifyCount = if k + 1 = 256 then 1 else 0
        rw [hc, if_neg hk, if_neg h256]

/-- Claim C5: a push that brings the queue length to exactly the 256-record
threshold sets `m_dataReady` and notifies the consumer (one more
`notify_one`), and 256 successive single-byte pushes from a fresh sink leave
the ready flag clear through push 255 and fire the signal exactly at the
256th push. -/
theorem push_threshold_fires :
    (∀ (s : OpsState) (data : List Nat),
        s.mDataRecords.length ≠ 256 →
        (pushOp s data).mDataRecords.length = 256 →
        (pushOp s data).mDataReady = true
          ∧ (pushOp s data).notifyCount = s.notifyCount + 1)
      ∧ (pushN 255).mDataReady = false
      ∧ (pushN 256).mDataReady = true
      ∧ (pushN 256).notifyCount = 1 := by
  refine ⟨?_, ?_, ?_, ?_⟩
  · intro s data h1 h2
    by_cases hne : data.isEmpty = true
    · rw [pushOp_empty s data hne] at h2
      exact absurd h2 h1
    · rw [pushOp_mDataRecords] at h2
      rw [pushOp_hit s data (bfalse hne) h2]
      exact ⟨rfl, rfl⟩
  · have h := pushN_invariant 255 (by omega)
    rw [h.2.1]
    rfl
  · have h := pushN_invariant 256 (by omega)
    rw [h.2.1]
    rfl
  · have h := pushN_invariant 256 (by omega)
    rw [h.2.2]
    rfl

/-- Witness instantiating claim C5's theorem: pushing one more byte into a
queue of 255 records fires the ready signal and one notification. -/
theorem push_threshold_fires_witness :
    (pushOp thresholdWitnessState [97]).mDataReady = true
      ∧ (pushOp thresholdWitnessState [97]).notifyCount = 1 := by
  have h1 : thresholdWitnessState.mDataRecords.length ≠ 256 := by
    simp [thresholdWitnessState, initOpsState]
  have h2 : (pushOp thresholdWitnessState [97]).mDataRecords.length = 256 := by
    rw [pushOp_mDataRecords, pushRecords_97]
    simp [thresholdWitnessState, initOpsState]
  have h := push_threshold_fires.1 thresholdWitnessState [97] h1 h2
  refine ⟨h.1, ?_⟩
  rw [h.2]
  rfl

theorem runOps_drain_empty (s : OpsState) (bs : List (List (List Nat)))
    (rest : List SinkOp) (h : s.mDataRecords.isEmpty = true) :
    runOps s bs (SinkOp.drain :: rest) = runOps s bs rest := by
  rw [runOps, popOp, if_pos h]
  simp

theorem runOps_drain_cons (s : OpsState) (bs : List (List (List Nat)))
    (rest : List SinkOp) (h : ¬ s.mDataRecords.isEmpty = true) :
    runOps s bs (SinkOp.drain :: rest)
      = runOps { s with mDataRecords := [], mDataReady := false }
          (bs ++ [s.mDataRecords]) rest := by
  rw [runOps, popOp, if_neg h]
  simp

theorem runOps_conservation (ops : List SinkOp) :
    ∀ (s : OpsState) (bs : List (List (List Nat))),
      (runOps s bs ops).2.flatten ++ (runOps s bs ops).1.mDataRecords
        = bs.flatten ++ (s.mDataRecords ++ pushedRecords ops) := by
  induction ops with
  | nil =>
    intro s bs
    rw [runOps, pushedRecords]
    simp
  | cons op rest ih =>
    intro s bs
    cases op with
    | push d =>
      rw [runOps, pushedRecords, ih, pushOp_mDataRecords]
      simp [List.append_assoc]
    | drain =>
      rw [pushedRecords]
      by_cases h : s.mDataRecords.isEmpty = true
      · have hnil : s.mDataRecords = [] := by
          cases hq : s.mDataRecords with
          | nil => rfl
          | cons a t =>
            rw [hq] at h
            exact absurd h (by simp)
        rw [runOps_drain_empty s bs rest h, ih, hnil]
      · rw [runOps_drain_cons s bs rest h, ih]
        simp [List.append_assoc]

/-- Claim C6: `pop` on an empty queue reports no data touching nothing; on a
non-empty queue it atomically hands the whole queue (FIFO order) to the out
buffer, empties the queue, clears the ready flag and reports data; and over
any sequence of pushes and drains the drained batches concatenated with the
remaining queue equal exactly the records pushed, in order — no record is
duplicated across batches and none is lost. -/
theorem pop_atomic_drain :
    (∀ (s : OpsState) (out : List (List Nat)),
        s.mDataRecords = [] → popOp s out = (s, out, false))
      ∧ (∀ (s : OpsState) (out : List (List Nat)),
        s.mDataRecords ≠ [] →
          popOp s out =
            ({ s with mDataRecords := [], mDataReady := false },
              s.mDataRecords, true))
      ∧ (∀ ops : List SinkOp,
          (runOps initOpsState [] ops).2.flatten
              ++ (runOps initOpsState [] ops).1.mDataRecords
            = pushedRecords ops) := by
  refine ⟨?_, ?_, ?_⟩
  · intro s out h
    rw [popOp, if_pos (by simp [h])]
  · intro s out h
    rw [popOp, if_neg (by simp [isEmpty_false_of_ne_nil _ h])]
  · intro ops
    have h := runOps_conservation ops initOpsState []
    simpa [initOpsState] using h

/-- Witness instantiating claim C6's theorem: draining a fresh sink reports
no data and changes nothing. -/
theorem pop_atomic_drain_witness :
    popOp initOpsState [] = (initOpsState, [], false) :=
  pop_atomic_drain.1 initOpsState [] rfl

/-- Claim C7: when shutdown is requested while records remain queued, the
watcher's final iteration drains them all, writes them to the destination
and then exits the loop; after the destructor sequence completes the queue
is empty and the watcher thread has been joined by the owner. -/
theorem shutdown_final_drain :
    ∀ s : OpsState, s.mDataRecords ≠ [] → s.writable = true →
      (keepWatchAndPullIter { s with mShutAndExit := true }).2 = true
        ∧ (destructorRun s).mDataRecords = []
        ∧ (destructorRun s).fileContent
            = s.fileContent ++ s.mDataRecords.map trimRecord
        ∧ (destructorRun s).watcherJoined = true := by
  intro s hne hw
  have h1 : s.mDataRecords.isEmpty = false := isEmpty_false_of_ne_nil _ hne
  refine ⟨?_, ?_, ?_, ?_⟩ <;>
    simp [destructorRun, keepWatchAndPullIter, popOp, writeToFile, h1, hw]

/-- Witness instantiating claim C7's theorem at a sink shutting down with
one undrained record and a writable destination. -/
theorem shutdown_final_drain_witness :
    (destructorRun shutdownWitnessState).mDataRecords = []
      ∧ (destructorRun shutdownWitnessState).fileContent
          = shutdownWitnessState.fileContent
              ++ shutdownWitnessState.mDataRecords.map trimRecord
      ∧ (destructorRun shutdownWitnessState).watcherJoined = true := by
  have h := shutdown_final_drain shutdownWitnessState
    (by simp [shutdownWitnessState, initOpsState]) rfl
  exact ⟨h.2.1, h.2.2.1, h.2.2.2⟩

/-- Claim C8: for strings, each numeric width and each numeric vector width,
`append` performs exactly the same state change as `write`, in both the file
sink (`appendFile*` vs `writeFile*`) and the in-memory sink (`DataOps`
`append` vs `write`): a pure alias with no distinct insert semantics. -/
theorem append_is_write_alias :
    ∀ (s : OpsState) (data : List Nat) (v : Nat) (vs : List Nat),
      appendFileStr s data = writeFile s data
      ∧ appendFileU8 s v = writeFileU8 s v
      ∧ appendFileU16 s v = writeFileU16 s v
      ∧ appendFileU32 s v = writeFileU32 s v
      ∧ appendFileU64 s v = writeFileU64 s v
      ∧ appendFileVec8 s vs = writeFileVec8 s vs
      ∧ appendFileVec16 s vs = writeFileVec16 s vs
      ∧ appendFileVec32 s vs = writeFileVec32 s vs
      ∧ appendFileVec64 s vs = writeFileVec64 s vs
      ∧ dataOpsAppend s data = dataOpsWrite s data
      ∧ dataOpsAppendU8 s v = dataOpsWriteU8 s v
      ∧ dataOpsAppendU16 s v = dataOpsWriteU16 s v
      ∧ dataOpsAppendU32 s v = dataOpsWriteU32 s v
      ∧ dataOpsAppendU64 s v = dataOpsWriteU64 s v
      ∧ dataOpsAppendVec8 s vs = dataOpsWriteVec8 s vs
      ∧ dataOpsAppendVec16 s vs = dataOpsWriteVec16 s vs
      ∧ dataOpsAppendVec32 s vs = dataOpsWriteVec32 s vs
      ∧ dataOpsAppendVec64 s vs = dataOpsWriteVec64 s vs := by
  intro s data v vs
  exact ⟨rfl, rfl, rfl, rfl, rfl, rfl, rfl, rfl, rfl, rfl, rfl, rfl, rfl, rfl,
    rfl, rfl, rfl, rfl⟩

theorem writeFileVec8_queue (vs : List Nat) :
    ∀ s : OpsState, s.mFileExists = true →
      ∃ s2, writeFileVec8 s vs = Except.ok s2
        ∧ s2.mFileExists = true
        ∧ s2.mDataRecords
            = s.mDataRecords ++ vs.map (fun x => pad (binRender 8 x)) := by
  induction vs with
  | nil =>
    intro s h
    exact ⟨s, rfl, h, by simp⟩
  | cons x xs ih =>
    intro s h
    have hne : (binRender 8 x).isEmpty = false :=
      isEmpty_false_of_ne_nil _ (binRender_ne_nil 8 x (by norm_num))
    have hx : writeFileU8 s x = Except.ok (pushOp s (binRender 8 x)) := by
      rw [writeFileU8, writeFile, if_neg (by simp [hne]), if_pos h]
    obtain ⟨s2, hrun, hex, hq⟩ := ih (pushOp s (binRender 8 x))
      (by rw [(pushOp_env s (binRender 8 x)).1]; exact h)
    refine ⟨s2, ?_, hex, ?_⟩
    · rw [writeFileVec8, List.foldlM_cons, hx]
      exact hrun
    · rw [hq, pushOp_mDataRecords,
        pushRecords_of_small _ (binRender_ne_nil 8 x (by norm_num))
          (by rw [binRender_length]; norm_num [RECORD_ARR_SIZE])]
      simp [List.append_assoc]

/-- Claim C9: writing an n-bit unsigned value (n in 8, 16, 32, 64) enqueues
the n-character fixed-width binary text rendering of the value as one
record; a vector is encoded one element at a time in element order, each
element contributing its own record; and a full produce-consume round for
the 8-bit value 5 puts the line "00000101" in the destination. -/
theorem numeric_binary_render :
    ∀ (s : OpsState) (v : Nat) (vs : List Nat), s.mFileExists = true →
      ((binRender 8 v).length = 8 ∧ (binRender 16 v).length = 16
        ∧ (binRender 32 v).length = 32 ∧ (binRender 64 v).length = 64)
      ∧ (∀ b ∈ binRender 8 v, b = 48 ∨ b = 49)
      ∧ (writeFileU8 s v = Except.ok (pushOp s (binRender 8 v))
          ∧ (pushOp s (binRender 8 v)).mDataRecords
              = s.mDataRecords ++ [pad (binRender 8 v)])
      ∧ writeFileU16 s v = Except.ok (pushOp s (binRender 16 v))
      ∧ writeFileU32 s v = Except.ok (pushOp s (binRender 32 v))
      ∧ writeFileU64 s v = Except.ok (pushOp s (binRender 64 v))
      ∧ (∃ s2, writeFileVec8 s vs = Except.ok s2
          ∧ s2.mDataRecords
              = s.mDataRecords ++ vs.map (fun x => pad (binRender 8 x)))
      ∧ (runCycleU8 initOpsState 5).toOption.map OpsState.fileContent
          = some [[48, 48, 48, 48, 48, 49, 48, 49]]
      ∧ binRender 8 5 = [48, 48, 48, 48, 48, 49, 48, 49] := by
  intro s v vs h
  have hwr : ∀ w : Nat, w ≠ 0 →
      writeFile s (binRender w v) = Except.ok (pushOp s (binRender w v)) := by
    intro w hw
    rw [writeFile,
      if_neg (by simp [isEmpty_false_of_ne_nil _ (binRender_ne_nil w v hw)]),
      if_pos h]
  refine ⟨⟨binRender_length 8 v, binRender_length 16 v, binRender_length 32 v,
      binRender_length 64 v⟩,
    binRender_vals 8 v, ⟨hwr 8 (by norm_num), ?_⟩, hwr 16 (by norm_num),
    hwr 32 (by norm_num), hwr 64 (by norm_num), ?_, by decide, by decide⟩
  · rw [pushOp_mDataRecords,
      pushRecords_of_small _ (binRender_ne_nil 8 v (by norm_num))
        (by rw [binRender_length]; norm_num [RECORD_ARR_SIZE])]
  · obtain ⟨s2, hrun, _, hq⟩ := writeFileVec8_queue vs s h
    exact ⟨s2, hrun, hq⟩

/-- Witness instantiating claim C9's theorem at a fresh sink, the value 5
and the two-element vector of 5 and 3. -/
theorem numeric_binary_render_witness :
    writeFileU8 initOpsState 5
        = Except.ok (pushOp initOpsState (binRender 8 5))
      ∧ (runCycleU8 initOpsState 5).toOption.map OpsState.fileContent
          = some [[48, 48, 48, 48, 48, 49, 48, 49]]
      ∧ (∃ s2, writeFileVec8 initOpsState [5, 3] = Except.ok s2
          ∧ s2.mDataRecords
              = [pad (binRender 8 5), pad (binRender 8 3)]) := by
  have h := numeric_binary_render initOpsState 5 [5, 3] rfl
  refine ⟨h.2.2.1.1, h.2.2.2.2.2.2.2.1, ?_⟩
  obtain ⟨s2, hrun, hq⟩ := h.2.2.2.2.2.2.1
  refine ⟨s2, hrun, ?_⟩
  rw [hq]
  rfl

/-- Claim C10: calling `setFileName`, `setFilePath` or `setFileExtension`
with an empty argument, or with an argument equal to the corresponding
current value, returns the same instance with the file name, path, extension
and resolved path object all unchanged. -/
theorem setters_noop_guard :
    ∀ (s : PathState) (arg : List Char),
      ((arg = [] ∨ arg = s.mFileName) → setFileName s arg = s)
      ∧ ((arg = [] ∨ arg = s.mFilePath) → setFilePath s arg = s)
      ∧ ((arg = [] ∨ arg = s.mFileExtension) → setFileExtension s arg = s) := by
  intro s arg
  refine ⟨?_, ?_, ?_⟩
  · intro h
    rw [setFileName, if_pos (by rcases h with h | h <;> simp [h])]
  · intro h
    rw [setFilePath, if_pos (by rcases h with h | h <;> simp [h])]
  · intro h
    rw [setFileExtension, if_pos (by rcases h with h | h <;> simp [h])]

/-- Witness instantiating claim C10's theorem: the empty argument and the
current-value argument leave a concrete configuration untouched. -/
theorem setters_noop_guard_witness :
    setFileName pathWitnessState [] = pathWitnessState
      ∧ setFilePath pathWitnessState ['/', 't', 'm', 'p', '/']
          = pathWitnessState
      ∧ setFileExtension pathWitnessState ['.', 't', 'x', 't']
          = pathWitnessState := by
  refine ⟨(setters_noop_guard pathWitnessState []).1 (Or.inl rfl),
    (setters_noop_guard pathWitnessState ['/', 't', 'm', 'p', '/']).2.1
      (Or.inr rfl),
    (setters_noop_guard pathWitnessState ['.', 't', 'x', 't']).2.2
      (Or.inr rfl)⟩
